import Mathlib

/-!
Shallow embedding of the docmost-cli HTTP contract layer.

The definitions below transcribe, function by function, the Python source in
`src/docmost/client.py`, `src/docmost/commands/auth.py` and
`src/docmost/commands/pages.py`.  JSON values decoded by `response.json()`
are modelled by the inductive type `Json`; Python-level operations whose
meaning depends on the runtime type of the value (`in`, subscripting,
`.get`, truthiness, `or`) are modelled by total Lean functions that return
`Option` where the Python operation can raise `TypeError`/`AttributeError`.
-/

namespace Docmost

/-- A decoded JSON document, as produced by `response.json()`. -/
inductive Json where
  | null
  | bool (b : Bool)
  | num (n : Int)
  | str (s : String)
  | arr (xs : List Json)
  | obj (kvs : List (String × Json))
  deriving Repr, BEq

/-- First value bound to key `k` in a decoded JSON object (Python dict lookup). -/
def jlookup (kvs : List (String × Json)) (k : String) : Option Json :=
  match kvs with
  | [] => none
  | (k2, v) :: rest => if k2 = k then some v else jlookup rest k

/-- Python `==` between an arbitrary value and a string: true only for an
equal string. -/
def Json.eqStr : Json → String → Bool
  | .str s, k => s = k
  | _, _ => false

/-- `takeEq needle hay` : `needle` is an initial segment of `hay`. -/
def takeEq : List Char → List Char → Bool
  | [], _ => true
  | _ :: _, [] => false
  | a :: as, b :: bs => a = b && takeEq as bs

/-- `needle` occurs as a contiguous run inside `hay` (Python `sub in s`). -/
def subIn (needle : List Char) : List Char → Bool
  | [] => takeEq needle []
  | c :: rest => takeEq needle (c :: rest) || subIn needle rest

/-- Python `k in j`.  For a dict it tests the keys, for a list it tests
membership of the string among the elements, for a string it tests substring
containment; for `None`, booleans and numbers it raises `TypeError`
(modelled as `none`). -/
def pyIn (k : String) : Json → Option Bool
  | .obj kvs => some (jlookup kvs k).isSome
  | .arr xs => some (xs.any (fun x => x.eqStr k))
  | .str s => some (subIn k.toList s.toList)
  | _ => none

/-- Python `j[k]` with a string key: dict lookup (`none` also covers
`KeyError`); on any non-dict value a string subscript raises `TypeError`. -/
def pySubscript (j : Json) (k : String) : Option Json :=
  match j with
  | .obj kvs => jlookup kvs k
  | _ => none

/-- Python `j.get(k, default)`: only dicts have `.get`; anything else raises
`AttributeError` (modelled as `none`). -/
def pyGet (j : Json) (k : String) (default : Json) : Option Json :=
  match j with
  | .obj kvs => some ((jlookup kvs k).getD default)
  | _ => none

/-- Python truthiness of a decoded JSON value. -/
def pyTruthy : Json → Bool
  | .null => false
  | .bool b => b
  | .num n => n ≠ 0
  | .str s => s ≠ ""
  | .arr xs => !xs.isEmpty
  | .obj kvs => !kvs.isEmpty

/-- Python `a or b` on decoded JSON values. -/
def pyOr (a b : Json) : Json :=
  if pyTruthy a then a else b

/-- The error taxonomy of `client.py`: `DocmostError` and its three
subclasses, each carrying the message, the optional status code and the
decoded response body passed to the constructor. -/
inductive Err where
  | authentication (message : Json) (statusCode : Option Nat) (response : Option Json)
  | notFound (message : Json) (statusCode : Option Nat) (response : Option Json)
  | validation (message : Json) (statusCode : Option Nat) (response : Option Json)
  | docmost (message : Json) (statusCode : Option Nat) (response : Option Json)
  deriving Repr, BEq

/-- Outcome of `DocmostClient._handle_response`: a returned payload, a raised
`DocmostError` (or subclass), or an uncaught Python runtime error such as the
`TypeError` from subscripting a list with a string. -/
inductive HandleResult where
  | ok (payload : Json)
  | err (e : Err)
  | pythonError (msg : String)
  deriving Repr, BEq

/-- The `try: data = response.json() except: data = {"error": response.text}`
step: a decode failure is wrapped, never raised. -/
def decodeStep (parsed : Option Json) (rawText : String) : Json :=
  parsed.getD (.obj [("error", .str rawText)])

/-- The unwrap step at the end of `_handle_response`
(`if "data" in data and "success" in data and "status" in data: return
data["data"]`), with Python short-circuit evaluation of `and`. -/
def unwrapStep (data : Json) : HandleResult :=
  match pyIn "data" data with
  | none => .pythonError "TypeError: argument is not iterable"
  | some false => .ok data
  | some true =>
    match pyIn "success" data with
    | none => .pythonError "TypeError: argument is not iterable"
    | some false => .ok data
    | some true =>
      match pyIn "status" data with
      | none => .pythonError "TypeError: argument is not iterable"
      | some false => .ok data
      | some true =>
        match pySubscript data "data" with
        | some v => .ok v
        | none => .pythonError "TypeError: indices must be integers"

/-- `DocmostClient._handle_response` on an already-decoded body `data` and
status code `status`: status classification then envelope unwrapping. -/
def handle_response (status : Nat) (data : Json) : HandleResult :=
  if status = 401 then
    .err (.authentication (.str "Authentication failed. Please run 'docmost login'.")
      (some 401) (some data))
  else if status = 404 then
    match pyGet data "message" (.str "Resource not found") with
    | some m => .err (.notFound m (some 404) (some data))
    | none => .pythonError "AttributeError: no attribute get"
  else if status = 400 then
    match pyGet data "message" (.str "Validation error") with
    | some m => .err (.validation m (some 400) (some data))
    | none => .pythonError "AttributeError: no attribute get"
  else if 400 ≤ status then
    match pyGet data "message" (.str s!"API error: {status}") with
    | some m => .err (.docmost m (some status) (some data))
    | none => .pythonError "AttributeError: no attribute get"
  else
    unwrapStep data

/-- Python `s.rstrip("/")`: remove every trailing `'/'`. -/
def rstripSlash (s : String) : String :=
  String.mk ((s.toList.reverse.dropWhile (fun c => c = '/')).reverse)

/-- Truthiness of the client's `self.token` (`str | None`). -/
def tokenTruthy : Option String → Bool
  | some s => s ≠ ""
  | none => false

/-- `DocmostClient._get_headers`: the base header dict, with `Authorization`
added exactly when the token is truthy. -/
def get_headers (token : Option String) : List (String × String) :=
  let headers := [("Content-Type", "application/x-www-form-urlencoded"),
                  ("Accept", "application/json")]
  if tokenTruthy token then
    headers ++ [("Authorization", "Bearer " ++ token.getD "")]
  else headers

/-- Python dict update `headers[k] = v`: replace in place, else append. -/
def setHeader : List (String × String) → String → String → List (String × String)
  | [], k, v => [(k, v)]
  | (k2, v2) :: rest, k, v =>
    if k2 = k then (k, v) :: rest else (k2, v2) :: setHeader rest k v

/-- Header lookup, for stating which value a header field carries. -/
def getHeader (headers : List (String × String)) (k : String) : Option String :=
  match headers with
  | [] => none
  | (k2, v) :: rest => if k2 = k then some v else getHeader rest k

/-- How a request body is encoded on the wire. -/
inductive ReqBody where
  | jsonBody (fields : List (String × Json))
  | formBody (fields : List (String × Json))
  | multipart (fileName : String) (mediaType : String) (formData : List (String × Json))
  deriving Repr, BEq

/-- One outbound HTTP POST as the client builds it. -/
structure Request where
  url : String
  headers : List (String × String)
  body : ReqBody
  deriving Repr, BEq

/-- `DocmostClient.post`: the request it builds and, given the server's
`status` and decoded body, the value `_handle_response` produces. -/
def DocmostClient.post (url : String) (token : Option String) (endpoint : String)
    (data : Option (List (String × Json))) (status : Nat) (respBody : Json) :
    Request × HandleResult :=
  ({ url := rstripSlash url ++ endpoint,
     headers := setHeader (get_headers token) "Content-Type" "application/json",
     body := .jsonBody (data.getD []) },
   handle_response status respBody)

/-- `DocmostClient.post_json`: transcribed from its own source lines
(130-153 of `client.py`). -/
def DocmostClient.post_json (url : String) (token : Option String) (endpoint : String)
    (data : Option (List (String × Json))) (status : Nat) (respBody : Json) :
    Request × HandleResult :=
  ({ url := rstripSlash url ++ endpoint,
     headers := setHeader (get_headers token) "Content-Type" "application/json",
     body := .jsonBody (data.getD []) },
   handle_response status respBody)

/-- Result of the raw-fetch primitive: raw bytes, a raised error, or an
uncaught Python error from the classification step. -/
inductive RawResult where
  | ok (raw : List Nat)
  | err (e : Err)
  | pythonError (msg : String)
  deriving Repr, BEq

/-- Modelled from the spec: `DocmostClient.post_binary` is called by
`export_page` in `commands/pages.py` but no definition of it appears in the
source tree.  Spec section 4.1 (`fetchRaw`) describes it: send one
form-encoded request, return the raw undecoded response bytes on success,
with status-code classification identical to the JSON path, the error
message taken from the body decoded as JSON when possible, falling back to
the raw text. -/
def DocmostClient.post_binary (url : String) (token : Option String) (endpoint : String)
    (data : Option (List (String × Json))) (status : Nat) (raw : List Nat)
    (parsed : Option Json) (rawText : String) : Request × RawResult :=
  ({ url := rstripSlash url ++ endpoint,
     headers := get_headers token,
     body := .formBody (data.getD []) },
   if 400 ≤ status then
     match handle_response status (decodeStep parsed rawText) with
     | .err e => .err e
     | .pythonError m => .pythonError m
     | .ok _ => .ok raw
   else .ok raw)

/-- Outcome of the token-extraction part of the `login` command. -/
inductive TokenResult where
  | ok (t : Json)
  | failed (msg : String)
  | crash (msg : String)
  deriving Repr, BEq

/-- The body-scanning part of `login` (`commands/auth.py` lines 50-58): the
nested `data.tokens` locations first, then the top-level keys, returning the
token value Python would leave bound (possibly `None`). -/
def scan_body_token (body : Json) : Except String Json :=
  let step1 : Except String Json :=
    match pyIn "data" body with
    | none => .error "TypeError"
    | some false => .ok .null
    | some true =>
      match pySubscript body "data" with
      | some (Json.obj dkvs) =>
        let tokens := (jlookup dkvs "tokens").getD (.obj [])
        match pyGet tokens "accessToken" .null, pyGet tokens "access_token" .null with
        | some a, some b => .ok (pyOr a b)
        | _, _ => .error "AttributeError"
      | some _ => .ok .null
      | none => .error "TypeError"
  match step1 with
  | .error m => .error m
  | .ok token1 =>
    if pyTruthy token1 then .ok token1
    else
      match pyGet body "token" .null, pyGet body "accessToken" .null,
            pyGet body "access_token" .null with
      | some t1, some t2, some t3 => .ok (pyOr t1 (pyOr t2 t3))
      | _, _, _ => .error "AttributeError"

/-- Token extraction in `login` (`commands/auth.py` lines 43-62): the
`authToken` cookie wins; otherwise the body is scanned; a still-falsy token
yields the "No token received from server" failure. -/
def extract_token (authCookie : Option String) (body : Json) : TokenResult :=
  let token0 : Json :=
    match authCookie with
    | some c => if c = "" then .null else .str c
    | none => .null
  if pyTruthy token0 then .ok token0
  else
    match scan_body_token body with
    | .error m => .crash m
    | .ok t => if pyTruthy t then .ok t else .failed "No token received from server"

/-- Characters Python `str.strip()` removes. -/
def isSpaceChar (c : Char) : Bool :=
  c = ' ' || c = '\t' || c = '\n' || c = '\r' || c = Char.ofNat 11 || c = Char.ofNat 12

/-- Python `s.strip()`. -/
def pyStrip (s : String) : String :=
  String.mk (((s.toList.dropWhile isSpaceChar).reverse.dropWhile isSpaceChar).reverse)

/-- Truthiness of an optional CLI string flag (`str | None`). -/
def optTruthy : Option String → Bool
  | some s => s ≠ ""
  | none => false

/-- One API-client call issued by a command handler. -/
inductive ApiCall where
  | post (endpoint : String) (payload : List (String × Json))
  | upload (endpoint : String) (filePath : String) (formData : List (String × Json))
  deriving Repr, BEq

/-- Observable result of running the `pages create` handler body. -/
structure CreateOutcome where
  calls : List ApiCall
  staged : Option (String × String)
  deleted : List String
  raised : Bool
  deriving Repr, BEq

/-- The staged file text of `create_page`: an H1 heading derived from the
title is added unless the stripped content already starts with `#`. -/
def stageText (title c : String) : String :=
  if !(takeEq ['#'] (pyStrip c).toList) then "# " ++ title ++ "\n\n" ++ c else c

/-- `create_page` (`commands/pages.py` lines 35-78).  `tmpName` is the path
`tempfile.NamedTemporaryFile` picks; the three `Except` arguments are the
server outcomes of the upload, the follow-up title update, and the
metadata-only create.  The `deleted` field records every `os.unlink`, which
the `finally:` block performs on all exit paths. -/
def create_page (content content_file : Option String) (space_id title : String)
    (parent_id : Option String) (tmpName : String)
    (uploadOutcome updateOutcome createOutcome : Except Err Json) : CreateOutcome :=
  if optTruthy content || optTruthy content_file then
    let stagedInfo : Option (String × String) × String :=
      if optTruthy content then
        (some (tmpName, stageText title (content.getD "")), tmpName)
      else (none, content_file.getD "")
    let tmp_path := stagedInfo.2
    let fin : List String := if optTruthy content then [tmp_path] else []
    let upCall := ApiCall.upload "/pages/import" tmp_path [("spaceId", .str space_id)]
    let tryRun : List ApiCall × Bool :=
      match uploadOutcome with
      | .error _ => ([upCall], true)
      | .ok result =>
        match pyGet result "title" .null with
        | none => ([upCall], true)
        | some rt =>
          if !(rt.eqStr title) then
            match pySubscript result "id" with
            | none => ([upCall], true)
            | some rid =>
              let updCall := ApiCall.post "/pages/update" [("pageId", rid), ("title", .str title)]
              match updateOutcome with
              | .error _ => ([upCall, updCall], true)
              | .ok _ => ([upCall, updCall], false)
          else ([upCall], false)
    ⟨tryRun.1, stagedInfo.1, fin, tryRun.2⟩
  else
    let data := [("spaceId", Json.str space_id), ("title", Json.str title)] ++
      (if optTruthy parent_id then [("parentPageId", Json.str (parent_id.getD ""))] else [])
    match createOutcome with
    | .error _ => ⟨[.post "/pages/create" data], none, [], true⟩
    | .ok _ => ⟨[.post "/pages/create" data], none, [], false⟩

/-- A console event the `pages update` handler emits.  The f-string pieces
are kept symbolic as the `Json` values interpolated into them. -/
inductive ConsoleEvent where
  | echo (s : String)
  | outputResult (r : Json)
  | updatedNote (pageTitle : Json)
  | newUrlNote (slug : Json) (slugId : Json)
  deriving Repr, BEq

/-- Observable result of running the `pages update` handler body. -/
structure UpdateOutcome where
  calls : List ApiCall
  events : List ConsoleEvent
  stagedTmp : Option String
  deleted : List String
  raised : Bool
  deriving Repr, BEq

/-- The `update_data` dict the confirmed content-update path assembles
(`commands/pages.py` lines 164-170). -/
def buildUpdateData (rid : Json) (title icon cover_photo : Option String)
    (rt current_icon current_cover : Json) : List (String × Json) :=
  [("pageId", rid)] ++
  (if optTruthy title && !(rt.eqStr (title.getD "")) then [("title", .str (title.getD ""))] else []) ++
  (if optTruthy icon || pyTruthy current_icon then
    [("icon", if optTruthy icon then .str (icon.getD "") else current_icon)] else []) ++
  (if optTruthy cover_photo || pyTruthy current_cover then
    [("coverPhoto", if optTruthy cover_photo then .str (cover_photo.getD "") else current_cover)] else [])

/-- `update_page` (`commands/pages.py` lines 118-195), content-update path
included.  `confirm` is the user's answer to the destructive-rename prompt;
the `Except` arguments are the server outcomes of the info, delete, import
and metadata-update calls.  Declining the prompt returns before any further
call; every later failure or Python-level crash is folded into `raised`. -/
def update_page (page_id : String) (title content content_file icon cover_photo : Option String)
    (tmpName : String) (confirm : Bool)
    (infoOutcome deleteOutcome uploadOutcome metaOutcome : Except Err Json) : UpdateOutcome :=
  let infoCall := ApiCall.post "/pages/info" [("pageId", .str page_id)]
  if optTruthy content || optTruthy content_file then
    match infoOutcome with
    | .error _ => ⟨[infoCall], [], none, [], true⟩
    | .ok page_info =>
      let titleDefault : Json := if optTruthy title then .str (title.getD "") else .str "Untitled"
      match pyGet page_info "title" titleDefault with
      | none => ⟨[infoCall], [], none, [], true⟩
      | some _ =>
        match pySubscript page_info "spaceId" with
        | none => ⟨[infoCall], [], none, [], true⟩
        | some space_id_j =>
          let current_icon := (pyGet page_info "icon" .null).getD .null
          let current_cover := (pyGet page_info "coverPhoto" .null).getD .null
          if !confirm then ⟨[infoCall], [.echo "Cancelled"], none, [], false⟩
          else
            let delCall := ApiCall.post "/pages/delete" [("pageId", .str page_id)]
            match deleteOutcome with
            | .error _ => ⟨[infoCall, delCall], [], none, [], true⟩
            | .ok _ =>
              let stagedInfo : Option String × String :=
                if optTruthy content then (some tmpName, tmpName)
                else (none, content_file.getD "")
              let tmp_path := stagedInfo.2
              let fin : List String := if optTruthy content then [tmp_path] else []
              let upCall := ApiCall.upload "/pages/import" tmp_path [("spaceId", space_id_j)]
              let base := [infoCall, delCall, upCall]
              match uploadOutcome with
              | .error _ => ⟨base, [], stagedInfo.1, fin, true⟩
              | .ok result0 =>
                match pySubscript result0 "id" with
                | none => ⟨base, [], stagedInfo.1, fin, true⟩
                | some rid =>
                  let scan : Except Unit (List (String × Json)) :=
                    if optTruthy title then
                      match pyGet result0 "title" .null with
                      | none => .error ()
                      | some rt => .ok (buildUpdateData rid title icon cover_photo
                          rt current_icon current_cover)
                    else .ok (buildUpdateData rid title icon cover_photo
                        .null current_icon current_cover)
                  match scan with
                  | .error _ => ⟨base, [], stagedInfo.1, fin, true⟩
                  | .ok update_data =>
                    let afterMeta : Except Err Json × List ApiCall :=
                      if update_data.length > 1 then
                        (metaOutcome, base ++ [.post "/pages/update" update_data])
                      else (.ok result0, base)
                    match afterMeta.1 with
                    | .error _ => ⟨afterMeta.2, [], stagedInfo.1, fin, true⟩
                    | .ok result =>
                      match pyGet result "title" .null with
                      | none => ⟨afterMeta.2, [.outputResult result], stagedInfo.1, fin, true⟩
                      | some finalTitle =>
                        let space_j := (pyGet page_info "space" (.obj [])).getD (.obj [])
                        match pyGet space_j "slug" (.str "unknown") with
                        | none => ⟨afterMeta.2, [.outputResult result, .updatedNote finalTitle],
                            stagedInfo.1, fin, true⟩
                        | some slug =>
                          match pyGet result "slugId" .null with
                          | none => ⟨afterMeta.2, [.outputResult result, .updatedNote finalTitle],
                              stagedInfo.1, fin, true⟩
                          | some slugId =>
                            ⟨afterMeta.2,
                             [.outputResult result, .updatedNote finalTitle, .newUrlNote slug slugId],
                             stagedInfo.1, fin, false⟩
  else
    let data := [("pageId", Json.str page_id)] ++
      (if optTruthy title then [("title", Json.str (title.getD ""))] else []) ++
      (if optTruthy icon then [("icon", Json.str (icon.getD ""))] else []) ++
      (if optTruthy cover_photo then [("coverPhoto", Json.str (cover_photo.getD ""))] else [])
    match metaOutcome with
    | .error _ => ⟨[.post "/pages/update" data], [], none, [], true⟩
    | .ok result => ⟨[.post "/pages/update" data], [.outputResult result], none, [], false⟩

/-- The base62 alphabet of `generate_position`. -/
def alphabet : List Char :=
  "0123456789ABCDEFGHIJKLMNOPQRSTUVWXYZabcdefghijklmnopqrstuvwxyz".toList

/-- Fuel-driven helper computing the digit list of the `while val > 0` loop
of `generate_position`; structural recursion on the fuel keeps it reducible
by the kernel.  Any fuel at least `val` yields the loop's result. -/
def digitsRevAux : Nat → Nat → List Char
  | _, 0 => []
  | 0, _ + 1 => []
  | fuel + 1, val + 1 =>
    alphabet.get ⟨(val + 1) % 62, by
      have h62 : alphabet.length = 62 := rfl
      rw [h62]; exact Nat.mod_lt _ (by norm_num)⟩ ::
      digitsRevAux fuel ((val + 1) / 62)

/-- The `while val > 0` loop of `generate_position`: base62 digits, least
significant first, exactly as the Python list is appended to. -/
def digitsRev (val : Nat) : List Char := digitsRevAux val val



/-- Python `str.zfill` on an unsigned digit string: left-pad with `'0'`. -/
def zfill (cs : List Char) (n : Nat) : List Char :=
  if n ≤ cs.length then cs else List.replicate (n - cs.length) '0' ++ cs

/-- `generate_position` (`commands/pages.py` lines 253-279) with the
impure inputs made explicit: `timestamp` is `int(time.time() * 1000)`,
`index` the per-call index, `rand` the value of `random.randint(0, 9)`. -/
def generate_position (timestamp index rand : Nat) : String :=
  let ts := timestamp % (62 ^ 4)
  let val := ts * 1000 + index * 10 + rand
  let pos := 'a' :: zfill ((digitsRev val).reverse) 5
  String.mk (pos.take 12)

/-- a continuation byte `0x80..0xBF`. -/
def isCont (b : Nat) : Bool := decide (0x80 ≤ b ∧ b ≤ 0xBF)

/-- Strict UTF-8 decoding of a byte sequence, as Python
`bytes.decode("utf-8")`: overlong encodings, surrogates and out-of-range
code points are rejected (`none` models `UnicodeDecodeError`). -/
def utf8Decode : List Nat → Option (List Char)
  | [] => some []
  | b :: rest =>
    if b < 0x80 then
      (utf8Decode rest).map (fun cs => Char.ofNat b :: cs)
    else if 0xC2 ≤ b ∧ b ≤ 0xDF then
      match rest with
      | c1 :: rest2 =>
        if isCont c1 then
          (utf8Decode rest2).map (fun cs => Char.ofNat ((b % 0x20) * 0x40 + c1 % 0x40) :: cs)
        else none
      | [] => none
    else if b = 0xE0 ∨ (0xE1 ≤ b ∧ b ≤ 0xEF) then
      match rest with
      | c1 :: c2 :: rest2 =>
        if (if b = 0xE0 then decide (0xA0 ≤ c1 ∧ c1 ≤ 0xBF)
            else if b = 0xED then decide (0x80 ≤ c1 ∧ c1 ≤ 0x9F)
            else isCont c1) && isCont c2 then
          (utf8Decode rest2).map
            (fun cs => Char.ofNat ((b % 0x10) * 0x1000 + (c1 % 0x40) * 0x40 + c2 % 0x40) :: cs)
        else none
      | _ => none
    else if b = 0xF0 ∨ (0xF1 ≤ b ∧ b ≤ 0xF4) then
      match rest with
      | c1 :: c2 :: c3 :: rest2 =>
        if (if b = 0xF0 then decide (0x90 ≤ c1 ∧ c1 ≤ 0xBF)
            else if b = 0xF4 then decide (0x80 ≤ c1 ∧ c1 ≤ 0x8F)
            else isCont c1) && isCont c2 && isCont c3 then
          (utf8Decode rest2).map
            (fun cs => Char.ofNat ((b % 0x08) * 0x40000 + (c1 % 0x40) * 0x1000 +
              (c2 % 0x40) * 0x40 + c3 % 0x40) :: cs)
        else none
      | _ => none
    else none

/-- One archive member as `zipfile` lists it. -/
structure ZipEntry where
  name : String
  content : List Nat
  deriving Repr, BEq

/-- A raw export payload: the response bytes together with the entry listing
`zipfile.ZipFile` produces for them when they form an archive.  `zipfile` is
Python's standard library and external to this repository, so it is modelled
at the interface the code uses (`namelist` order and `read`). -/
structure RawExport where
  bytes : List Nat
  entries : List ZipEntry

/-- Outcome of decoding an export payload. -/
inductive ExportText where
  | ok (content : String)
  | err (e : Err)
  | pythonError (msg : String)
  deriving Repr, BEq

/-- `extract_content_from_zip` (`commands/pages.py` lines 371-391): an empty
listing raises `DocmostError("Export ZIP file is empty")`; otherwise the
first entry's bytes are decoded as UTF-8. -/
def extract_content_from_zip (entries : List ZipEntry) : ExportText :=
  match entries with
  | [] => .err (.docmost (.str "Export ZIP file is empty") none none)
  | e :: _ =>
    match utf8Decode e.content with
    | some cs => .ok (String.mk cs)
    | none => .pythonError "UnicodeDecodeError"

/-- The decode step of `export_page` (`commands/pages.py` lines 417-423):
dispatch on the two-byte ZIP signature `PK`, with the plain-text fallback. -/
def export_decode (raw : RawExport) : ExportText :=
  if raw.bytes.take 2 = [0x50, 0x4B] then extract_content_from_zip raw.entries
  else
    match utf8Decode raw.bytes with
    | some cs => .ok (String.mk cs)
    | none => .pythonError "UnicodeDecodeError"

/-- The `pages export` handler body (`commands/pages.py` lines 410-423): one
`post_binary` call whose raw bytes feed `export_decode`. -/
def export_page (url : String) (token : Option String) (page_id export_format : String)
    (status : Nat) (raw : List Nat) (parsed : Option Json) (rawText : String)
    (entries : List ZipEntry) : Request × ExportText :=
  let r := DocmostClient.post_binary url token "/pages/export"
    (some [("pageId", .str page_id), ("format", .str export_format)]) status raw parsed rawText
  (r.1,
   match r.2 with
   | .ok bytes => export_decode ⟨bytes, entries⟩
   | .err e => .err e
   | .pythonError m => .pythonError m)

/-! ## Claim theorems -/

theorem digitsRevAux_fuel (fuel₁ : Nat) : ∀ fuel₂ val, val ≤ fuel₁ → val ≤ fuel₂ →
    digitsRevAux fuel₁ val = digitsRevAux fuel₂ val := by
  induction fuel₁ with
  | zero =>
    intro fuel₂ val h1 _
    interval_cases val
    cases fuel₂ <;> rfl
  | succ f ih =>
    intro fuel₂ val h1 h2
    match val, fuel₂ with
    | 0, fuel₂ => cases fuel₂ <;> rfl
    | v + 1, g + 1 =>
      simp only [digitsRevAux, List.cons.injEq, true_and]
      have hdiv : (v + 1) / 62 ≤ v := by
        have := Nat.div_lt_self (Nat.succ_pos v) (by norm_num : 1 < 62)
        omega
      exact ih g ((v + 1) / 62) (le_trans hdiv (Nat.le_of_succ_le_succ h1))
        (le_trans hdiv (Nat.le_of_succ_le_succ h2))

/-- The loop equation as written in the source: emit `alphabet[val % 62]`
and continue with `val // 62` while `val > 0`. -/
theorem digitsRev_eq (val : Nat) :
    digitsRev val = if h : val = 0 then []
      else alphabet.get ⟨val % 62, by
          have h62 : alphabet.length = 62 := rfl
          rw [h62]; exact Nat.mod_lt _ (by norm_num)⟩ ::
        digitsRev (val / 62) := by
  match val with
  | 0 => rfl
  | v + 1 =>
    simp only [digitsRev, digitsRevAux, Nat.succ_ne_zero, dite_false, List.cons.injEq, true_and]
    have hdiv : (v + 1) / 62 ≤ v := by
      have := Nat.div_lt_self (Nat.succ_pos v) (by norm_num : 1 < 62)
      omega
    exact digitsRevAux_fuel v ((v + 1) / 62) ((v + 1) / 62) hdiv le_rfl


/-- Claim C10: the client operations `post` and `post_json` are extensionally
identical: for every base URL, token, endpoint path, field mapping and server
response they build the same request (same URL, same headers including
`Content-Type: application/json`, same JSON-encoded body) and produce the
same handled result. -/
theorem post_eq_post_json (url : String) (token : Option String) (endpoint : String)
    (data : Option (List (String × Json))) (status : Nat) (respBody : Json) :
    DocmostClient.post url token endpoint data status respBody =
      DocmostClient.post_json url token endpoint data status respBody := rfl

/-- Claim C1 (counterexample): at a concrete call, `DocmostClient.post` sends
a JSON-encoded body with request header `Content-Type: application/json`,
not a URL-encoded form body with `Content-Type:
application/x-www-form-urlencoded` as the claim states. -/
theorem post_content_type_counterexample :
    getHeader (DocmostClient.post "https://h/api" (some "tok") "/spaces/list" none 200
        (.obj [])).1.headers "Content-Type" = some "application/json" ∧
    (DocmostClient.post "https://h/api" (some "tok") "/spaces/list" none 200
        (.obj [])).1.body = .jsonBody [] ∧
    getHeader (DocmostClient.post "https://h/api" (some "tok") "/spaces/list" none 200
        (.obj [])).1.headers "Content-Type" ≠ some "application/x-www-form-urlencoded" ∧
    ∀ fields, (DocmostClient.post "https://h/api" (some "tok") "/spaces/list" none 200
        (.obj [])).1.body ≠ .formBody fields := by
  refine ⟨rfl, rfl, fun h => ?_, fun fields h => ?_⟩
  · rw [show getHeader (DocmostClient.post "https://h/api" (some "tok") "/spaces/list" none 200
        (.obj [])).1.headers "Content-Type" = some "application/json" from rfl] at h
    injection h with h2
    exact absurd h2 (by decide)
  · rw [show (DocmostClient.post "https://h/api" (some "tok") "/spaces/list" none 200
        (.obj [])).1.body = .jsonBody [] from rfl] at h
    exact ReqBody.noConfusion h

/-- Claim C1 (amended): for every path and field mapping, `DocmostClient.post`
sends the fields as a JSON-encoded body with request header `Content-Type:
application/json` (plus `Accept: application/json`, and `Authorization:
Bearer token` exactly when a token is present), and returns the unwrapped
response envelope on any 2xx status. -/
theorem post_request_contract (url : String) (token : Option String) (endpoint : String)
    (data : Option (List (String × Json))) (status : Nat) (respBody : Json) :
    getHeader (DocmostClient.post url token endpoint data status respBody).1.headers
      "Content-Type" = some "application/json" ∧
    getHeader (DocmostClient.post url token endpoint data status respBody).1.headers
      "Accept" = some "application/json" ∧
    (tokenTruthy token = true →
      getHeader (DocmostClient.post url token endpoint data status respBody).1.headers
        "Authorization" = some ("Bearer " ++ token.getD "")) ∧
    (tokenTruthy token = false →
      getHeader (DocmostClient.post url token endpoint data status respBody).1.headers
        "Authorization" = none) ∧
    (DocmostClient.post url token endpoint data status respBody).1.body =
      .jsonBody (data.getD []) ∧
    (DocmostClient.post url token endpoint data status respBody).1.url =
      rstripSlash url ++ endpoint ∧
    (200 ≤ status → status ≤ 299 →
      (DocmostClient.post url token endpoint data status respBody).2 = unwrapStep respBody) := by
  cases htok : tokenTruthy token with
  | false =>
    refine ⟨?_, ?_, fun h => absurd h (by simp), fun _ => ?_, rfl, rfl, fun h1 h2 => ?_⟩
    · simp [DocmostClient.post, get_headers, htok, setHeader, getHeader]
    · simp [DocmostClient.post, get_headers, htok, setHeader, getHeader]
    · simp [DocmostClient.post, get_headers, htok, setHeader, getHeader]
    · show handle_response status respBody = unwrapStep respBody
      unfold handle_response
      rw [if_neg (by omega), if_neg (by omega), if_neg (by omega), if_neg (by omega)]
  | true =>
    refine ⟨?_, ?_, fun _ => ?_, fun h => absurd h (by simp), rfl, rfl, fun h1 h2 => ?_⟩
    · simp [DocmostClient.post, get_headers, htok, setHeader, getHeader]
    · simp [DocmostClient.post, get_headers, htok, setHeader, getHeader]
    · simp [DocmostClient.post, get_headers, htok, setHeader, getHeader]
    · show handle_response status respBody = unwrapStep respBody
      unfold handle_response
      rw [if_neg (by omega), if_neg (by omega), if_neg (by omega), if_neg (by omega)]

/-- Claim C1 witness: the amended contract evaluated at one concrete call. -/
theorem post_request_contract_witness :
    getHeader (DocmostClient.post "https://h/api/" (some "tok") "/x" none 204
      (.obj [("k", .num 1)])).1.headers "Authorization" = some "Bearer tok" ∧
    (DocmostClient.post "https://h/api/" (some "tok") "/x" none 204
      (.obj [("k", .num 1)])).2 = .ok (.obj [("k", .num 1)]) := by
  have h := post_request_contract "https://h/api/" (some "tok") "/x" none 204
    (.obj [("k", .num 1)])
  refine ⟨h.2.2.1 (by decide), ?_⟩
  rw [h.2.2.2.2.2.2 (by norm_num) (by norm_num)]
  rfl

/-- Claim C2: the raw-fetch operation `post_binary` (absent from `client.py`,
modelled from the spec) sends one form-encoded request and, on any 2xx
status, returns the raw undecoded response bytes with no JSON decoding, and
the `pages export` handler feeds exactly those bytes to its ZIP decode
step. -/
theorem post_binary_returns_raw (url : String) (token : Option String) (endpoint : String)
    (data : Option (List (String × Json))) (status : Nat) (raw : List Nat)
    (parsed : Option Json) (rawText : String)
    (h1 : 200 ≤ status) (h2 : status ≤ 299) :
    (DocmostClient.post_binary url token endpoint data status raw parsed rawText).2 =
      .ok raw ∧
    (DocmostClient.post_binary url token endpoint data status raw parsed rawText).1.body =
      .formBody (data.getD []) ∧
    ∀ page_id export_format entries,
      (export_page url token page_id export_format status raw parsed rawText entries).2 =
        export_decode ⟨raw, entries⟩ := by
  have hok : (DocmostClient.post_binary url token endpoint data status raw parsed rawText).2 =
      .ok raw := by
    show (if 400 ≤ status then _ else RawResult.ok raw) = RawResult.ok raw
    rw [if_neg (by omega)]
  refine ⟨hok, rfl, fun page_id export_format entries => ?_⟩
  show (match (DocmostClient.post_binary url token "/pages/export"
      (some [("pageId", .str page_id), ("format", .str export_format)])
      status raw parsed rawText).2 with
    | .ok bytes => export_decode ⟨bytes, entries⟩
    | .err e => ExportText.err e
    | .pythonError m => ExportText.pythonError m) = export_decode ⟨raw, entries⟩
  rw [show (DocmostClient.post_binary url token "/pages/export"
      (some [("pageId", .str page_id), ("format", .str export_format)])
      status raw parsed rawText).2 = .ok raw from by
    show (if 400 ≤ status then _ else RawResult.ok raw) = RawResult.ok raw
    rw [if_neg (by omega)]]

/-- Claim C2 witness: at status 200 the exporter receives the binary ZIP
payload untouched. -/
theorem post_binary_returns_raw_witness :
    (DocmostClient.post_binary "https://h/api" (some "t") "/pages/export" none 200
      [0x50, 0x4B, 0x03, 0x04] none "").2 = .ok [0x50, 0x4B, 0x03, 0x04] ∧
    (export_page "https://h/api" (some "t") "p1" "markdown" 200 [0x50, 0x4B, 0x03, 0x04]
      none "" [⟨"page.md", [0x68, 0x69]⟩]).2 = .ok "hi" := by
  have h := post_binary_returns_raw "https://h/api" (some "t") "/pages/export" none 200
    [0x50, 0x4B, 0x03, 0x04] none "" (by norm_num) (by norm_num)
  refine ⟨h.1, ?_⟩
  rw [h.2.2 "p1" "markdown" [⟨"page.md", [0x68, 0x69]⟩]]
  rfl

/-- Claim C3 (code evaluated at the failing input): for the 2xx body
`["data", "success", "status"]` — a list containing all three key strings —
the unwrap step of `_handle_response` does not return the list unchanged as
the claim requires; Python's `in` tests list membership, so `data["data"]`
is reached and raises an uncaught `TypeError`. -/
theorem unwrap_list_body_crashes :
    handle_response 200 (.arr [.str "data", .str "success", .str "status"]) =
      .pythonError "TypeError: indices must be integers" ∧
    (∀ payload, handle_response 200 (.arr [.str "data", .str "success", .str "status"]) ≠
      .ok payload) ∧
    handle_response 200 (.arr [.str "data", .str "success", .str "status"]) ≠
      .ok (.arr [.str "data", .str "success", .str "status"]) := by
  refine ⟨rfl, fun payload h => ?_, fun h => ?_⟩
  · rw [show handle_response 200 (.arr [.str "data", .str "success", .str "status"]) =
      .pythonError "TypeError: indices must be integers" from rfl] at h
    exact HandleResult.noConfusion h
  · rw [show handle_response 200 (.arr [.str "data", .str "success", .str "status"]) =
      .pythonError "TypeError: indices must be integers" from rfl] at h
    exact HandleResult.noConfusion h

/-- On a decoded mapping body the unwrap step always returns a payload:
either the `data` value of a full envelope or the mapping itself. -/
theorem unwrapStep_obj_ok (kvs : List (String × Json)) :
    ∃ payload, unwrapStep (.obj kvs) = .ok payload := by
  unfold unwrapStep
  rcases h1 : jlookup kvs "data" with _ | v1
  · exact ⟨.obj kvs, by simp [pyIn, h1]⟩
  · rcases h2 : jlookup kvs "success" with _ | v2
    · exact ⟨.obj kvs, by simp [pyIn, h1, h2]⟩
    · rcases h3 : jlookup kvs "status" with _ | v3
      · exact ⟨.obj kvs, by simp [pyIn, h1, h2, h3]⟩
      · exact ⟨v1, by simp [pyIn, pySubscript, h1, h2, h3]⟩

/-- Claim C4: for every mapping body, status classification is total and
exclusive: 401 raises `AuthenticationError` with a fixed message independent
of the body; 404 raises `NotFoundError` and 400 raises `ValidationError`,
each with the body's `message` value or its default; any other status in
[400, 599] raises the generic `DocmostError` with the body's `message` value
or `"API error: status"`; and every status in [200, 299] returns a payload
with no error raised. -/
theorem status_classification (status : Nat) (kvs : List (String × Json)) :
    (status = 401 → handle_response status (.obj kvs) =
      .err (.authentication (.str "Authentication failed. Please run 'docmost login'.")
        (some 401) (some (.obj kvs)))) ∧
    (status = 404 → handle_response status (.obj kvs) =
      .err (.notFound ((jlookup kvs "message").getD (.str "Resource not found"))
        (some 404) (some (.obj kvs)))) ∧
    (status = 400 → handle_response status (.obj kvs) =
      .err (.validation ((jlookup kvs "message").getD (.str "Validation error"))
        (some 400) (some (.obj kvs)))) ∧
    (400 ≤ status → status ≤ 599 → status ≠ 401 → status ≠ 404 → status ≠ 400 →
      handle_response status (.obj kvs) =
      .err (.docmost ((jlookup kvs "message").getD (.str s!"API error: {status}"))
        (some status) (some (.obj kvs)))) ∧
    (200 ≤ status → status ≤ 299 →
      ∃ payload, handle_response status (.obj kvs) = .ok payload) := by
  refine ⟨fun h => ?_, fun h => ?_, fun h => ?_, fun h1 h2 h3 h4 h5 => ?_, fun h1 h2 => ?_⟩
  · subst h; simp [handle_response, pyGet]
  · subst h; simp [handle_response, pyGet]
  · subst h; simp [handle_response, pyGet]
  · unfold handle_response
    rw [if_neg h3, if_neg h4, if_neg h5, if_pos h1]
    simp [pyGet]
  · unfold handle_response
    rw [if_neg (by omega), if_neg (by omega), if_neg (by omega), if_neg (by omega)]
    exact unwrapStep_obj_ok kvs

/-- Claim C4 witness: classification evaluated at a 404 with a message, a
503 without one, and a 250 success. -/
theorem status_classification_witness :
    handle_response 404 (.obj [("message", .str "Page not found")]) =
      .err (.notFound (.str "Page not found") (some 404)
        (some (.obj [("message", .str "Page not found")]))) ∧
    handle_response 503 (.obj []) =
      .err (.docmost (.str "API error: 503") (some 503) (some (.obj []))) ∧
    ∃ payload, handle_response 250 (.obj [("items", .arr [])]) = .ok payload := by
  refine ⟨?_, ?_, ?_⟩
  · exact (status_classification 404 [("message", .str "Page not found")]).2.1 rfl
  · exact (status_classification 503 []).2.2.2.1 (by norm_num) (by norm_num)
      (by norm_num) (by norm_num) (by norm_num)
  · exact (status_classification 250 [("items", .arr [])]).2.2.2.2
      (by norm_num) (by norm_num)

/-- Claim C5 (counterexample): with no cookie, a top-level `token` of `"A"`
and a nested `data.tokens.accessToken` of `"B"`, login extracts `"B"` — the
nested locations are checked before the top-level ones, not after as the
claim orders them. -/
theorem login_token_order_counterexample :
    extract_token none (.obj [("token", .str "A"),
      ("data", .obj [("tokens", .obj [("accessToken", .str "B")])])]) = .ok (.str "B") ∧
    extract_token none (.obj [("token", .str "A"),
      ("data", .obj [("tokens", .obj [("accessToken", .str "B")])])]) ≠ .ok (.str "A") := by
  refine ⟨rfl, fun h => ?_⟩
  rw [show extract_token none (.obj [("token", .str "A"),
      ("data", .obj [("tokens", .obj [("accessToken", .str "B")])])]) = .ok (.str "B")
    from rfl] at h
  injection h with hj
  injection hj with hs
  exact absurd hs (by decide)

/-- The top-level fallback chain of `login` against a first-truthy cascade. -/
theorem pyOr_chain_cascade (t1 t2 t3 : Json) :
    (if pyTruthy (pyOr t1 (pyOr t2 t3)) then TokenResult.ok (pyOr t1 (pyOr t2 t3))
     else .failed "No token received from server") =
    (if pyTruthy t1 then TokenResult.ok t1
     else if pyTruthy t2 then TokenResult.ok t2
     else if pyTruthy t3 then TokenResult.ok t3
     else .failed "No token received from server") := by
  by_cases h1 : pyTruthy t1 <;> by_cases h2 : pyTruthy t2 <;> by_cases h3 : pyTruthy t3 <;>
    simp [pyOr, h1, h2, h3]

/-- Claim C5 (amended): login token extraction checks the `authToken` cookie
first, then the JSON body locations in the order
`data.tokens.accessToken`, `data.tokens.access_token`, then top-level
`token`, `accessToken`, `access_token`, returning the first truthy value; if
none is present it fails with the "No token received from server" error.
(The well-formedness hypothesis rules out the bodies on which the Python
code would raise `AttributeError` because `data.tokens` is not a mapping.) -/
theorem extract_token_priority (cookie : Option String) (kvs : List (String × Json))
    (hwf : ∀ d, jlookup kvs "data" = some (Json.obj d) →
      ∃ tk, (jlookup d "tokens").getD (Json.obj []) = Json.obj tk) :
    extract_token cookie (.obj kvs) =
      (let cookieTok : Json := match cookie with
         | some c => if c = "" then Json.null else Json.str c
         | none => Json.null
       let nestedTokens : Json := match jlookup kvs "data" with
         | some (Json.obj d) => (jlookup d "tokens").getD (Json.obj [])
         | _ => Json.obj []
       if pyTruthy cookieTok then TokenResult.ok cookieTok
       else if pyTruthy ((pyGet nestedTokens "accessToken" Json.null).getD Json.null) then
         TokenResult.ok ((pyGet nestedTokens "accessToken" Json.null).getD Json.null)
       else if pyTruthy ((pyGet nestedTokens "access_token" Json.null).getD Json.null) then
         TokenResult.ok ((pyGet nestedTokens "access_token" Json.null).getD Json.null)
       else if pyTruthy ((pyGet (Json.obj kvs) "token" Json.null).getD Json.null) then
         TokenResult.ok ((pyGet (Json.obj kvs) "token" Json.null).getD Json.null)
       else if pyTruthy ((pyGet (Json.obj kvs) "accessToken" Json.null).getD Json.null) then
         TokenResult.ok ((pyGet (Json.obj kvs) "accessToken" Json.null).getD Json.null)
       else if pyTruthy ((pyGet (Json.obj kvs) "access_token" Json.null).getD Json.null) then
         TokenResult.ok ((pyGet (Json.obj kvs) "access_token" Json.null).getD Json.null)
       else TokenResult.failed "No token received from server") := by
  simp only []
  by_cases h0 : pyTruthy (match cookie with
    | some c => if c = "" then Json.null else Json.str c
    | none => Json.null)
  · unfold extract_token
    rw [if_pos h0, if_pos h0]
  · unfold extract_token
    rw [if_neg h0, if_neg h0]
    unfold scan_body_token
    rcases hd : jlookup kvs "data" with _ | v
    · simp only [pyIn, hd, Option.isSome_none, pyGet, jlookup, Option.getD_some]
      rw [show pyTruthy Json.null = false from rfl]
      simp only [Bool.false_eq_true, if_false]
      exact pyOr_chain_cascade _ _ _
    · match v with
      | .null | .bool _ | .num _ | .str _ | .arr _ =>
        simp only [pyIn, hd, Option.isSome_some, pySubscript, pyGet, jlookup,
          Option.getD_some]
        rw [show pyTruthy Json.null = false from rfl]
        simp only [Bool.false_eq_true, if_false]
        exact pyOr_chain_cascade _ _ _
      | .obj d =>
        obtain ⟨tk, htk⟩ := hwf d hd
        simp only [pyIn, hd, Option.isSome_some, pySubscript, htk, pyGet,
          Option.getD_some]
        by_cases ha : pyTruthy ((jlookup tk "accessToken").getD Json.null)
        · simp [pyOr, ha]
        · by_cases hb : pyTruthy ((jlookup tk "access_token").getD Json.null)
          · simp [pyOr, ha, hb]
          · simp only [pyOr, ha, hb, if_neg, Bool.false_eq_true, if_false]
            have := pyOr_chain_cascade
              ((jlookup kvs "token").getD Json.null)
              ((jlookup kvs "accessToken").getD Json.null)
              ((jlookup kvs "access_token").getD Json.null)
            simpa [pyOr, ha, hb] using this

/-- Claim C5 witness: the priority theorem evaluated where only the nested
location holds a token. -/
theorem extract_token_priority_witness :
    extract_token none (.obj [("data", .obj [("tokens",
      .obj [("access_token", .str "tok9")])])]) = .ok (.str "tok9") := by
  rw [extract_token_priority none [("data", .obj [("tokens",
      .obj [("access_token", .str "tok9")])])]
    (by
      intro d hd
      injection hd with h1
      injection h1 with h2
      exact ⟨[("access_token", Json.str "tok9")], by rw [← h2]; rfl⟩)]
  rfl

/-- Claim C6: after `create_page` completes — whether the upload (or the
follow-up title update) succeeded or raised — inline content means the
tool-generated staged temp file was written and is deleted on every exit
path, while a caller-supplied content file is never deleted. -/
theorem create_page_cleanup (content content_file : Option String) (space_id title : String)
    (parent_id : Option String) (tmpName : String) (up upd cr : Except Err Json)
    (hfresh : ∀ p, content_file = some p → tmpName ≠ p) :
    (optTruthy content = true →
      (create_page content content_file space_id title parent_id tmpName up upd cr).staged =
        some (tmpName, stageText title (content.getD "")) ∧
      (create_page content content_file space_id title parent_id tmpName up upd cr).deleted =
        [tmpName]) ∧
    (∀ p, content_file = some p →
      p ∉ (create_page content content_file space_id title parent_id tmpName up upd cr).deleted) := by
  constructor
  · intro hc
    constructor <;> simp [create_page, hc]
  · intro p hp
    by_cases hc : optTruthy content
    · simp only [create_page, hc, Bool.true_or, if_true, if_pos]
      simp only [List.mem_singleton]
      exact fun h => hfresh p hp h.symm
    · by_cases hf : optTruthy content_file
      · simp [create_page, hc, hf]
      · cases cr <;> simp [create_page, hc, hf]

/-- Claim C6 witness: a failing upload still deletes the staged temp file,
and a caller-owned path is untouched. -/
theorem create_page_cleanup_witness :
    (create_page (some "hello world") none "s1" "T" none "/tmp/x.md"
      (.error (.docmost (.str "boom") (some 500) none)) (.ok (.obj []))
      (.ok (.obj []))).deleted = ["/tmp/x.md"] ∧
    "/home/u/doc.md" ∉ (create_page none (some "/home/u/doc.md") "s1" "T" none "/tmp/x.md"
      (.ok (.obj [])) (.ok (.obj [])) (.ok (.obj []))).deleted := by
  constructor
  · exact ((create_page_cleanup (some "hello world") none "s1" "T" none "/tmp/x.md"
      (.error (.docmost (.str "boom") (some 500) none)) (.ok (.obj [])) (.ok (.obj []))
      (fun p hp => nomatch hp)).1 rfl).2
  · exact (create_page_cleanup none (some "/home/u/doc.md") "s1" "T" none "/tmp/x.md"
      (.ok (.obj [])) (.ok (.obj [])) (.ok (.obj []))
      (fun p hp => by injection hp with h; rw [← h]; decide)).2 "/home/u/doc.md" rfl

/-- Claim C7 (counterexample): an empty export archive raises the base
`DocmostError` with message "Export ZIP file is empty" — not an error with
message "export archive is empty" as the claim words it (the code also has
no separate DataError kind). -/
theorem export_empty_message_counterexample :
    extract_content_from_zip [] =
      .err (.docmost (.str "Export ZIP file is empty") none none) ∧
    ∀ st resp, extract_content_from_zip [] ≠
      .err (.docmost (.str "export archive is empty") st resp) := by
  refine ⟨rfl, fun st resp h => ?_⟩
  rw [show extract_content_from_zip [] =
    .err (.docmost (.str "Export ZIP file is empty") none none) from rfl] at h
  injection h with he
  injection he with hm hst hresp
  injection hm with hs
  exact absurd hs (by decide)

/-- Claim C7 (amended): if the first two bytes of the raw export are the ZIP
signature `PK`, the decode procedure takes the first archive entry in
listing order and returns its bytes decoded as UTF-8 text; without the
signature the raw bytes are decoded as text directly; and an archive with
zero entries raises `DocmostError` with message "Export ZIP file is empty"
rather than crashing. -/
theorem export_decode_contract (raw : RawExport) :
    (raw.bytes.take 2 = [0x50, 0x4B] → ∀ e es, raw.entries = e :: es → ∀ cs,
      utf8Decode e.content = some cs → export_decode raw = .ok (String.mk cs)) ∧
    (raw.bytes.take 2 = [0x50, 0x4B] → raw.entries = [] →
      export_decode raw = .err (.docmost (.str "Export ZIP file is empty") none none)) ∧
    (raw.bytes.take 2 ≠ [0x50, 0x4B] → ∀ cs, utf8Decode raw.bytes = some cs →
      export_decode raw = .ok (String.mk cs)) := by
  refine ⟨fun hsig e es hent cs hdec => ?_, fun hsig hent => ?_, fun hsig cs hdec => ?_⟩
  · unfold export_decode
    rw [if_pos hsig, hent]
    simp [extract_content_from_zip, hdec]
  · unfold export_decode
    rw [if_pos hsig, hent]
    rfl
  · unfold export_decode
    rw [if_neg hsig]
    simp [hdec]

/-- Claim C7 witness: a one-entry archive, an empty archive, and the
plain-text fallback, each at concrete bytes. -/
theorem export_decode_contract_witness :
    export_decode ⟨[0x50, 0x4B, 0x03, 0x04], [⟨"page.md", [0x23, 0x20, 0x54]⟩]⟩ =
      .ok "# T" ∧
    export_decode ⟨[0x50, 0x4B], []⟩ =
      .err (.docmost (.str "Export ZIP file is empty") none none) ∧
    export_decode ⟨[0x23, 0x20, 0x54], []⟩ = .ok "# T" := by
  refine ⟨?_, ?_, ?_⟩
  · exact (export_decode_contract ⟨[0x50, 0x4B, 0x03, 0x04],
      [⟨"page.md", [0x23, 0x20, 0x54]⟩]⟩).1 rfl ⟨"page.md", [0x23, 0x20, 0x54]⟩ [] rfl
      ['#', ' ', 'T'] rfl
  · exact (export_decode_contract ⟨[0x50, 0x4B], []⟩).2.1 rfl rfl
  · exact (export_decode_contract ⟨[0x23, 0x20, 0x54], []⟩).2.2 (by decide)
      ['#', ' ', 'T'] rfl

/-- Claim C8: in the content-update path of `update_page`, when the user
declines the confirmation prompt the handler has issued only the initial
info call — zero `/pages/delete` posts and zero file uploads — prints
"Cancelled", and raises no error; the delete call can only appear after an
explicit confirmation. -/
theorem update_page_declined (page_id : String)
    (title content content_file icon cover_photo : Option String) (tmpName : String)
    (infoKvs : List (String × Json)) (sid : Json) (del up meta : Except Err Json)
    (hcontent : (optTruthy content || optTruthy content_file) = true)
    (hsid : jlookup infoKvs "spaceId" = some sid) :
    update_page page_id title content content_file icon cover_photo tmpName false
        (.ok (.obj infoKvs)) del up meta =
      ⟨[.post "/pages/info" [("pageId", .str page_id)]], [.echo "Cancelled"],
        none, [], false⟩ ∧
    (∀ ep pl, ApiCall.post ep pl ∈ (update_page page_id title content content_file icon
      cover_photo tmpName false (.ok (.obj infoKvs)) del up meta).calls →
      ep ≠ "/pages/delete") ∧
    (∀ ep fp fd, ApiCall.upload ep fp fd ∉ (update_page page_id title content content_file
      icon cover_photo tmpName false (.ok (.obj infoKvs)) del up meta).calls) := by
  have hmain : update_page page_id title content content_file icon cover_photo tmpName false
      (.ok (.obj infoKvs)) del up meta =
      ⟨[.post "/pages/info" [("pageId", .str page_id)]], [.echo "Cancelled"],
        none, [], false⟩ := by
    unfold update_page
    rw [if_pos hcontent]
    simp only [pyGet, pySubscript, hsid, Bool.not_false, if_true]
  refine ⟨hmain, fun ep pl hmem => ?_, fun ep fp fd hmem => ?_⟩
  · rw [hmain] at hmem
    simp only [List.mem_singleton] at hmem
    injection hmem with h1 h2
    rw [h1]
    decide
  · rw [hmain] at hmem
    simp only [List.mem_singleton] at hmem
    exact ApiCall.noConfusion hmem

/-- Claim C8 witness: the declined prompt evaluated at a concrete page. -/
theorem update_page_declined_witness :
    update_page "p1" none (some "new text") none none none "/tmp/t.md" false
        (.ok (.obj [("title", .str "Old"), ("spaceId", .str "s1")]))
        (.ok (.obj [])) (.ok (.obj [])) (.ok (.obj [])) =
      ⟨[.post "/pages/info" [("pageId", .str "p1")]], [.echo "Cancelled"],
        none, [], false⟩ :=
  (update_page_declined "p1" none (some "new text") none none none "/tmp/t.md"
    [("title", .str "Old"), ("spaceId", .str "s1")] (.str "s1")
    (.ok (.obj [])) (.ok (.obj [])) (.ok (.obj [])) rfl rfl).1

theorem digitsRevAux_mem (fuel : Nat) : ∀ val c, c ∈ digitsRevAux fuel val → c ∈ alphabet := by
  induction fuel with
  | zero =>
    intro val c h
    cases val <;> simp [digitsRevAux] at h
  | succ f ih =>
    intro val c h
    cases val with
    | zero => simp [digitsRevAux] at h
    | succ v =>
      simp only [digitsRevAux, List.mem_cons] at h
      rcases h with h | h
      · rw [h]; exact List.get_mem _ _ _
      · exact ih _ _ h

theorem zfill_length (cs : List Char) (n : Nat) : (zfill cs n).length = max n cs.length := by
  unfold zfill
  split
  · simp_all
  · simp_all
    omega

theorem zfill_mem (cs : List Char) (n : Nat) (c : Char) (h : c ∈ zfill cs n) :
    c = '0' ∨ c ∈ cs := by
  unfold zfill at h
  split at h
  · exact Or.inr h
  · rcases List.mem_append.mp h with h2 | h2
    · exact Or.inl (List.eq_of_mem_replicate h2)
    · exact Or.inr h2

/-- Claim C9: for every call index, timestamp and random tie-breaker, the
generated position string is between 5 and 12 characters long, starts with
the fixed leading symbol `a`, continues only with characters of the
62-symbol base62 alphabet, and the part after the prefix keeps at least 5
characters. -/
theorem generate_position_contract (timestamp index rand : Nat) :
    5 ≤ (generate_position timestamp index rand).length ∧
    (generate_position timestamp index rand).length ≤ 12 ∧
    (generate_position timestamp index rand).toList.head? = some 'a' ∧
    (∀ c ∈ (generate_position timestamp index rand).toList.tail, c ∈ alphabet) ∧
    5 ≤ (generate_position timestamp index rand).toList.tail.length := by
  have hform : (generate_position timestamp index rand).toList =
      'a' :: (zfill ((digitsRev ((timestamp % 62 ^ 4) * 1000 + index * 10 + rand)).reverse)
        5).take 11 := by
    show ('a' :: zfill ((digitsRev ((timestamp % 62 ^ 4) * 1000 + index * 10 + rand)).reverse)
        5).take 12 = _
    rw [List.take_succ_cons]
  have hlen : (generate_position timestamp index rand).length =
      (generate_position timestamp index rand).toList.length := rfl
  have hz : 5 ≤ (zfill ((digitsRev ((timestamp % 62 ^ 4) * 1000 + index * 10 +
      rand)).reverse) 5).length := by
    rw [zfill_length]
    exact le_max_left _ _
  refine ⟨?_, ?_, ?_, ?_, ?_⟩
  · rw [hlen, hform]
    simp only [List.length_cons, List.length_take]
    omega
  · rw [hlen, hform]
    simp only [List.length_cons, List.length_take]
    omega
  · rw [hform]
    rfl
  · rw [hform]
    intro c hc
    simp only [List.tail_cons] at hc
    have hc2 := List.take_subset 11 _ hc
    rcases zfill_mem _ _ _ hc2 with h | h
    · rw [h]; decide
    · exact digitsRevAux_mem _ _ _ (List.mem_reverse.mp h)
  · rw [hform]
    simp only [List.tail_cons, List.length_take]
    omega

end Docmost
